import Mathlib

/-!
Verification of the iOS-AntiRevoke-DNS-Rules pipeline.

This file shallowly embeds the core of the repository (domain extraction
from decoded plist payloads, domain merging, certificate chain splitting,
the signing fallback control flow, and the rule-file emitters) as Lean
definitions translated from the Python source, and proves the behavioural
claims of the specification against them.

Modelling conventions:
- plist values (the structured payload produced by plistlib) are embedded
  as the inductive `PValue`; Python dicts become association lists with
  first-match lookup, Python lists become Lean lists.
- Python string sorting (`sorted`) is ascending code-point order, which is
  exactly the order of Mathlib's `LinearOrder String` instance (lexicographic
  on the code points of the characters).
- `sorted(list(s))` for a Python set `s` accumulated by `set.update` is
  modelled by concatenating the contributing lists and applying
  `sortedDedup` (sort the distinct elements): both produce the unique
  sorted duplicate-free list of the union.
- file-system and subprocess effects (openssl) are modelled by explicit
  environment records carrying the file contents and the external
  primitive's reported outcome.
-/

namespace AntiRevoke

/-- Embedding of the plist value universe handled by `plistlib`:
strings, integers, booleans, arrays and dictionaries. -/
inductive PValue where
  | str : String → PValue
  | int : Int → PValue
  | bool : Bool → PValue
  | list : List PValue → PValue
  | dict : List (String × PValue) → PValue

/-- First-match key lookup in an embedded Python dict (`d[k]` / `d.get(k)`). -/
def PValue.lookup : List (String × PValue) → String → Option PValue
  | [], _ => none
  | (k, v) :: rest, key => if k = key then some v else PValue.lookup rest key

/-- Python `d.get(key, default)`. -/
def PValue.getD (m : List (String × PValue)) (key : String) (d : PValue) : PValue :=
  (PValue.lookup m key).getD d

/-- Body of the `for payload in payload_content` loop of
`CryptoHandler.extract_domains` (crypto_handler.py lines 223-229): for a
dict entry, read `DNSSettings` (default `{}`); if it is a dict, read
`SupplementalMatchDomains` (default `[]`); if that is a list, contribute
all of its elements, otherwise contribute nothing. -/
def entry_domains (payload : PValue) : List PValue :=
  match payload with
  | .dict pm =>
    match PValue.getD pm "DNSSettings" (.dict []) with
    | .dict dm =>
      match PValue.getD dm "SupplementalMatchDomains" (.list []) with
      | .list md => md
      | _ => []
    | _ => []
  | _ => []

/-- `CryptoHandler.extract_domains` (crypto_handler.py lines 207-236):
reads `PayloadContent` (default `[]`); if it is a list, extends the result
with `entry_domains` of each element; any shape mismatch (including a
non-dict top level, where `.get` would raise and the surrounding
`except` returns `[]`) yields the empty list. The Python `domains.extend`
imposes no per-element type check, so the result is a list of arbitrary
plist values. -/
def extract_domains (plist : PValue) : List PValue :=
  match plist with
  | .dict m =>
    match PValue.getD m "PayloadContent" (.list []) with
    | .list content => content.foldl (fun acc p => acc ++ entry_domains p) []
    | _ => []
  | _ => []

/-- Lexicographic ascending code-point comparison of character lists: this
is the order Python's `sorted` uses on strings. -/
def charListLe : List Char → List Char → Bool
  | [], _ => true
  | _ :: _, [] => false
  | a :: as, b :: bs =>
    if a.toNat < b.toNat then true
    else if b.toNat < a.toNat then false
    else charListLe as bs

/-- Python's `s1 <= s2` on strings: code-point lexicographic order. -/
def strLe (a b : String) : Bool :=
  charListLe a.data b.data

/-- Python `sorted(set(l))` for a list of strings: the sorted list of the
distinct elements, in ascending code-point order. -/
def sortedDedup (l : List String) : List String :=
  List.insertionSort (fun a b => strLe a b = true) l.dedup

/-- `AntiRevokeOrchestrator.merge_domains` (main.py lines 125-139) applied
to the per-source domain lists: `self.all_domains` is the set union of the
per-source extractions (`set.update` per source), and the function returns
`sorted(list(self.all_domains))`. -/
def merge_domains (domainSets : List (List String)) : List String :=
  sortedDedup (domainSets.foldl (· ++ ·) [])

/-- The payload dictionary built by `CryptoHandler.create_profile`
(crypto_handler.py lines 264-300). The four freshly drawn UUIDs are
parameters (the code draws them from `uuid.uuid4()`), as is the fallback
timestamp `nowUtc` used when `updated_utc` is `None`. Serialization by
`plistlib.dump` and the later decode are modelled as the identity on this
structured value. -/
def create_profile_payload (domains : List String) (updatedUtc : Option String)
    (domainCount : Option Nat) (backendHost : String)
    (uuidMain uuidMainPayload uuidDns uuidDnsPayload : String)
    (nowUtc : String) : PValue :=
  let domainTotal := domainCount.getD domains.dedup.length
  let updatedValue := updatedUtc.getD nowUtc
  let displayDate := (updatedValue.splitOn " ").headD ""
  .dict [
    ("PayloadVersion", .int 1),
    ("PayloadType", .str "Configuration"),
    ("PayloadIdentifier", .str ("com.revokeGuard." ++ uuidMain)),
    ("PayloadUUID", .str uuidMainPayload),
    ("PayloadDisplayName", .str ("RevokeGuard " ++ displayDate)),
    ("PayloadDescription", .str ("Auto-generated on " ++ updatedValue ++
      ". Blocked Domains: " ++ toString domainTotal ++
      ". Backend: " ++ backendHost ++ ".")),
    ("PayloadOrganization", .str "iOS-AntiRevoke-DNS-Rules"),
    ("PayloadRemovalDisallowed", .bool false),
    ("ConsentText", .dict [
      ("default", .str "This profile provides protection against revocation and blacklisting.")]),
    ("PayloadContent", .list [
      .dict [
        ("PayloadVersion", .int 1),
        ("PayloadType", .str "com.apple.dnsSettings.managed"),
        ("PayloadIdentifier", .str ("com.revokeGuard.dns." ++ uuidDns)),
        ("PayloadUUID", .str uuidDnsPayload),
        ("PayloadDisplayName", .str "DNS Settings"),
        ("DNSSettings", .dict [
          ("DNSProtocol", .str "HTTPS"),
          ("ServerURL", .str "https://reject.rzmy.dpdns.org/dns-query"),
          ("SupplementalMatchDomains", .list ((sortedDedup domains).map .str))
        ])
      ]
    ])
  ]

/-- The PEM begin marker scanned for by `split_certificate_chain`. -/
def beginMarker : String := "-----BEGIN CERTIFICATE-----"

/-- The PEM end marker scanned for by `split_certificate_chain`. -/
def endMarker : String := "-----END CERTIFICATE-----"

/-- Python `marker in line` (substring containment). -/
def containsMarker (line marker : String) : Bool :=
  decide (marker.data <:+: line.data)

/-- The `for line in content.splitlines()` loop of
`CryptoHandler.split_certificate_chain` (crypto_handler.py lines 148-162):
a line containing the begin marker starts a fresh block; a line containing
the end marker closes the current block (even if no begin marker was seen,
in which case the block consists of the end-marker line alone) and appends
the joined block to the block list; other lines are kept only while inside
a block. -/
def certBlocksLoop : List String → List String → Bool → List String
  | [], _current, _inCert => []
  | line :: rest, current, inCert =>
    if containsMarker line beginMarker then
      certBlocksLoop rest [line] true
    else if containsMarker line endMarker then
      ("\n".intercalate (current ++ [line])) :: certBlocksLoop rest [] false
    else if inCert then
      certBlocksLoop rest (current ++ [line]) inCert
    else
      certBlocksLoop rest current inCert

/-- The certificate blocks collected by `split_certificate_chain` from the
lines of a fullchain file. -/
def certBlocks (lines : List String) : List String :=
  certBlocksLoop lines [] false

/-- `CryptoHandler.split_certificate_chain` (crypto_handler.py lines
125-205), on the lines of the fullchain file: returns `none` on zero
collected blocks (the error return `(None, None)`); otherwise the first
block is the server certificate and, when more than one block exists,
the remaining blocks joined by newlines form the chain file content. -/
def split_certificate_chain (lines : List String) : Option (String × Option String) :=
  match certBlocks lines with
  | [] => none
  | b :: rest =>
    some (b, if rest.isEmpty then none else some ("\n".intercalate rest))

/-- Environment of one `CryptoHandler.sign_profile` call: the configured
certificate/key paths, existence of the involved files, the lines of the
configured certificate file, and whether the external openssl smime sign
invocation succeeds and produces its output file. -/
structure SignEnv where
  certPath : Option String
  keyPath : Option String
  plistExists : Bool
  certFileExists : Bool
  keyFileExists : Bool
  certLines : List String
  opensslSignOk : Bool

/-- Observable outcome of `sign_profile`: whether a signed container was
produced, and how many of the temporary certificate files created by the
chain split were created and deleted during the call. -/
structure SignTrace where
  result : Option Unit
  tempsCreated : Nat
  tempsDeleted : Nat
deriving DecidableEq

/-- `CryptoHandler.sign_profile` (crypto_handler.py lines 312-408): guard
clauses for unconfigured or missing cert/key/plist; then the chain split
(which creates one temporary file for the server certificate and one more
when a chain part exists); on split failure the raw certificate file is
used instead and no temporary files exist. The temporary files are
unlinked only on the success path (lines 384-396); the failure paths
(`CalledProcessError`, missing output) return without cleanup. -/
def sign_profile (env : SignEnv) : SignTrace :=
  if env.certPath.isNone || env.keyPath.isNone then ⟨none, 0, 0⟩
  else if !env.plistExists then ⟨none, 0, 0⟩
  else if !env.certFileExists then ⟨none, 0, 0⟩
  else if !env.keyFileExists then ⟨none, 0, 0⟩
  else
    match split_certificate_chain env.certLines with
    | none =>
      if env.opensslSignOk then ⟨some (), 0, 0⟩ else ⟨none, 0, 0⟩
    | some (_server, chain) =>
      let created := 1 + (if chain.isSome then 1 else 0)
      if env.opensslSignOk then ⟨some (), created, created⟩
      else ⟨none, created, 0⟩

/-- The two possible profile artifacts written by
`AntiRevokeOrchestrator.generate_profile`. -/
inductive ProfileOutput where
  | signed : String → ProfileOutput
  | unsigned : String → ProfileOutput
deriving DecidableEq

/-- `AntiRevokeOrchestrator.generate_profile` (main.py lines 141-185):
`none` when `create_profile` failed; otherwise a signing attempt is made
only when both cert and key paths are configured, a successful attempt
yields the signed mobileconfig, and every other case falls through to
copying the unsigned plist to the distinct unsigned filename. -/
def generate_profile (env : SignEnv) (createOk : Bool) : Option ProfileOutput :=
  if !createOk then none
  else if env.certPath.isSome && env.keyPath.isSome then
    match (sign_profile env).result with
    | some _ => some (.signed "RevokeGuard_Auto-Sync.mobileconfig")
    | none => some (.unsigned "RevokeGuard_Auto-Sync.plist")
  else some (.unsigned "RevokeGuard_Auto-Sync.plist")

/-- Drop leading whitespace characters from a character list. -/
def dropLeadingWs : List Char → List Char
  | [] => []
  | c :: cs => if c.isWhitespace then dropLeadingWs cs else c :: cs

/-- Python `str.strip()` with no argument: remove leading and trailing
whitespace. -/
def pyStrip (s : String) : String :=
  ⟨(dropLeadingWs ((dropLeadingWs s.data).reverse)).reverse⟩

/-- `RuleConverter._build_header` (rule_converter.py lines 23-43): the
shared five header lines. -/
def build_header (pfx author updatedUtc : String) (domainCount : Nat) : List String :=
  [pfx ++ " Project: iOS-AntiRevoke-DNS-Rules",
   pfx ++ " Author: " ++ author,
   pfx ++ " Updated: " ++ updatedUtc,
   pfx ++ " Domain Count: " ++ toString domainCount,
   pfx ++ " License: MIT License"]

/-- The `rules` list built by `RuleConverter.generate_quantumultx_rules`
(rule_converter.py lines 45-67): header, format comment, blank line, then
one `host, d, reject` line per non-blank domain of `sorted(set(domains))`,
using the stripped domain. -/
def quantumultx_rule_lines (domains : List String) (author updatedUtc : String)
    (domainCount : Nat) : List String :=
  build_header "#" author updatedUtc domainCount
    ++ ["# Format: host, domain, action", ""]
    ++ (sortedDedup domains).filterMap (fun d =>
        if pyStrip d = "" then none else some ("host, " ++ pyStrip d ++ ", reject"))

/-- `RuleConverter.generate_quantumultx_rules`: the joined document. -/
def generate_quantumultx_rules (domains : List String) (author updatedUtc : String)
    (domainCount : Nat) : String :=
  "\n".intercalate (quantumultx_rule_lines domains author updatedUtc domainCount)

/-- The `rules` list built by `RuleConverter.generate_surge_rules`
(rule_converter.py lines 69-91). -/
def surge_rule_lines (domains : List String) (author updatedUtc : String)
    (domainCount : Nat) : List String :=
  build_header "#" author updatedUtc domainCount
    ++ ["# Format: DOMAIN,domain,action", ""]
    ++ (sortedDedup domains).filterMap (fun d =>
        if pyStrip d = "" then none else some ("DOMAIN," ++ pyStrip d ++ ",REJECT"))

/-- `RuleConverter.generate_surge_rules`: the joined document. -/
def generate_surge_rules (domains : List String) (author updatedUtc : String)
    (domainCount : Nat) : String :=
  "\n".intercalate (surge_rule_lines domains author updatedUtc domainCount)

/-- The `rules` list built by `RuleConverter.generate_loon_rules`
(rule_converter.py lines 93-115). -/
def loon_rule_lines (domains : List String) (author updatedUtc : String)
    (domainCount : Nat) : List String :=
  build_header "#" author updatedUtc domainCount
    ++ ["# Format: DOMAIN,domain,action", ""]
    ++ (sortedDedup domains).filterMap (fun d =>
        if pyStrip d = "" then none else some ("DOMAIN," ++ pyStrip d ++ ",REJECT"))

/-- `RuleConverter.generate_loon_rules`: the joined document. -/
def generate_loon_rules (domains : List String) (author updatedUtc : String)
    (domainCount : Nat) : String :=
  "\n".intercalate (loon_rule_lines domains author updatedUtc domainCount)

/-- The `rules` list built by `RuleConverter.generate_shadowrocket_rules`
(rule_converter.py lines 117-139). -/
def shadowrocket_rule_lines (domains : List String) (author updatedUtc : String)
    (domainCount : Nat) : List String :=
  build_header "#" author updatedUtc domainCount
    ++ ["# Format: DOMAIN,domain,action", ""]
    ++ (sortedDedup domains).filterMap (fun d =>
        if pyStrip d = "" then none else some ("DOMAIN," ++ pyStrip d ++ ",REJECT"))

/-- `RuleConverter.generate_shadowrocket_rules`: the joined document. -/
def generate_shadowrocket_rules (domains : List String) (author updatedUtc : String)
    (domainCount : Nat) : String :=
  "\n".intercalate (shadowrocket_rule_lines domains author updatedUtc domainCount)

/-- The `rules` list built by `RuleConverter.generate_hosts_rules`
(rule_converter.py lines 141-170): header, format comment, blank line,
then one `ip d` line per non-blank domain. -/
def hosts_rule_lines (domains : List String) (author updatedUtc : String)
    (domainCount : Nat) (ip : String) : List String :=
  build_header "#" author updatedUtc domainCount
    ++ ["# Format: IP domain", ""]
    ++ (sortedDedup domains).filterMap (fun d =>
        if pyStrip d = "" then none else some (ip ++ " " ++ pyStrip d))

/-- `RuleConverter.generate_hosts_rules`: the joined document (the caller
uses the default ip `0.0.0.0`). -/
def generate_hosts_rules (domains : List String) (author updatedUtc : String)
    (domainCount : Nat) (ip : String := "0.0.0.0") : String :=
  "\n".intercalate (hosts_rule_lines domains author updatedUtc domainCount ip)

/-- The `domains.txt` content written by
`RuleFileGenerator.generate_all_rules` (rule_converter.py lines 262-271):
each header line newline-terminated, a blank line, then each non-blank
stripped domain newline-terminated. -/
def domain_list_content (domains : List String) (author updatedUtc : String)
    (domainCount : Nat) : String :=
  String.join ((build_header "#" author updatedUtc domainCount).map (· ++ "\n"))
    ++ "\n"
    ++ String.join ((sortedDedup domains).filterMap (fun d =>
        if pyStrip d = "" then none else some (pyStrip d ++ "\n")))

/-! ### Helper lemmas about the code-point order and the shared list operations -/

theorem charListLe_total : ∀ as bs : List Char,
    charListLe as bs = true ∨ charListLe bs as = true
  | [], _ => Or.inl rfl
  | _ :: _, [] => Or.inr rfl
  | a :: as, b :: bs => by
    by_cases hab : a.toNat < b.toNat
    · exact Or.inl (by simp [charListLe, hab])
    by_cases hba : b.toNat < a.toNat
    · exact Or.inr (by simp [charListLe, hba])
    · rcases charListLe_total as bs with h | h
      · exact Or.inl (by simp [charListLe, hab, hba, h])
      · exact Or.inr (by simp [charListLe, hab, hba, h])

theorem charListLe_trans : ∀ as bs cs : List Char,
    charListLe as bs = true → charListLe bs cs = true → charListLe as cs = true
  | [], _, _, _, _ => rfl
  | _ :: _, [], _, h1, _ => by simp [charListLe] at h1
  | _ :: _, _ :: _, [], _, h2 => by simp [charListLe] at h2
  | a :: as, b :: bs, c :: cs, h1, h2 => by
    simp only [charListLe] at h1 h2 ⊢
    by_cases hab : a.toNat < b.toNat <;> by_cases hba : b.toNat < a.toNat <;>
      by_cases hbc : b.toNat < c.toNat <;> by_cases hcb : c.toNat < b.toNat <;>
        simp only [hab, hba, hbc, hcb, if_pos, if_neg, if_true, if_false,
          reduceCtorEq] at h1 h2 ⊢ <;>
      first
        | rfl
        | omega
        | (have hac : a.toNat < c.toNat := by omega
           simp [hac])
        | (have hac : ¬ a.toNat < c.toNat := by omega
           have hca : ¬ c.toNat < a.toNat := by omega
           simp only [hac, hca, if_neg, if_false]
           exact charListLe_trans as bs cs h1 h2)

theorem strLe_total (a b : String) : strLe a b = true ∨ strLe b a = true :=
  charListLe_total a.data b.data

theorem strLe_trans {a b c : String} (h1 : strLe a b = true) (h2 : strLe b c = true) :
    strLe a c = true :=
  charListLe_trans a.data b.data c.data h1 h2

instance : IsTotal String (fun a b : String => strLe a b = true) :=
  ⟨strLe_total⟩

instance : IsTrans String (fun a b : String => strLe a b = true) :=
  ⟨fun _ _ _ => strLe_trans⟩

theorem sortedDedup_sorted (l : List String) :
    (sortedDedup l).Sorted (fun a b => strLe a b = true) :=
  List.sorted_insertionSort _ _

theorem sortedDedup_nodup (l : List String) : (sortedDedup l).Nodup :=
  ((List.perm_insertionSort _ _).nodup_iff).mpr l.nodup_dedup

theorem mem_sortedDedup {x : String} {l : List String} :
    x ∈ sortedDedup l ↔ x ∈ l := by
  unfold sortedDedup
  rw [List.mem_insertionSort, List.mem_dedup]

theorem mem_foldl_union {x : String} : ∀ (sets : List (List String)) (acc : List String),
    x ∈ sets.foldl (· ++ ·) acc ↔ x ∈ acc ∨ ∃ s ∈ sets, x ∈ s
  | [], acc => by simp
  | s :: rest, acc => by
    rw [List.foldl_cons, mem_foldl_union rest (acc ++ s)]
    simp only [List.mem_append, List.mem_cons]
    constructor
    · rintro (⟨h | h⟩ | ⟨t, ht, hx⟩)
      · exact Or.inl h
      · exact Or.inr ⟨s, Or.inl rfl, h⟩
      · exact Or.inr ⟨t, Or.inr ht, hx⟩
    · rintro (h | ⟨t, (rfl | ht), hx⟩)
      · exact Or.inl (Or.inl h)
      · exact Or.inl (Or.inr hx)
      · exact Or.inr ⟨t, ht, hx⟩

theorem mem_merge_domains {x : String} {sets : List (List String)} :
    x ∈ merge_domains sets ↔ ∃ s ∈ sets, x ∈ s := by
  unfold merge_domains
  rw [mem_sortedDedup, mem_foldl_union]
  simp

theorem foldl_append_eq_flatten {α β : Type} (f : α → List β) :
    ∀ (l : List α) (acc : List β),
      l.foldl (fun a x => a ++ f x) acc = acc ++ (l.map f).flatten
  | [], acc => by simp
  | x :: xs, acc => by
    rw [List.foldl_cons, foldl_append_eq_flatten f xs]
    simp

theorem extract_domains_dict_eq (m : List (String × PValue)) :
    extract_domains (.dict m)
      = match PValue.getD m "PayloadContent" (.list []) with
        | .list c => c.foldl (fun acc p => acc ++ entry_domains p) []
        | _ => [] := rfl

theorem extract_domains_dict_of_list {m : List (String × PValue)} {content : List PValue}
    (h : PValue.getD m "PayloadContent" (.list []) = .list content) :
    extract_domains (.dict m) = (content.map entry_domains).flatten := by
  rw [extract_domains_dict_eq m, h]
  exact foldl_append_eq_flatten entry_domains content []

example : extract_domains (.dict [("PayloadContent", .str "x")]) = [] := rfl

example :
    certBlocks [beginMarker, "AAA", endMarker] = [beginMarker ++ "\n" ++ "AAA" ++ "\n" ++ endMarker] := by
  decide

example : certBlocks [endMarker] = [endMarker] := by decide

example : split_certificate_chain [] = none := rfl

example : extract_domains (create_profile_payload ["b", "a"] (some "ts") (some 2) "h" "u1" "u2" "u3" "u4" "n")
    = [.str "a", .str "b"] := rfl

example : merge_domains [["b", "a"], ["a", "c"]] = ["a", "b", "c"] := by decide

/-! ### Claim theorems -/

/-- C1 (counterexample): the claim says merge discards falsy/blank strings,
but `merge_domains` is only `sorted(list(all_domains))`: merging a source
set holding the empty string returns a list that still contains it. -/
theorem merge_domains_keeps_blank_counterexample :
    merge_domains [[""]] = [""] ∧ "" ∈ merge_domains [[""]] := by
  constructor
  · rfl
  · rw [mem_merge_domains]
    exact ⟨[""], by simp, by simp⟩

/-- C1 (amended): for every collection of per-source domain sets,
`merge_domains` returns the set union across all inputs as a list sorted in
ascending code-point order with no duplicate entries (case-sensitive exact
match); blank entries are NOT discarded here (they are only filtered later
by the rule emitters). -/
theorem merge_domains_sorted_nodup_union (domainSets : List (List String)) :
    (merge_domains domainSets).Sorted (fun a b => strLe a b = true) ∧
    (merge_domains domainSets).Nodup ∧
    ∀ x, x ∈ merge_domains domainSets ↔ ∃ s ∈ domainSets, x ∈ s :=
  ⟨sortedDedup_sorted _, sortedDedup_nodup _, fun _ => mem_merge_domains⟩

/-- C2: for every non-empty domain list, extracting the domains of the
payload built by `create_profile` recovers exactly the domain set of the
input, deduplicated and order-insensitive: the extraction is literally the
sorted deduplication of the input (as plist strings), and a string is
extracted iff it occurs in the input list. -/
theorem create_profile_extract_roundtrip (domains : List String)
    (updatedUtc : Option String) (domainCount : Option Nat)
    (backendHost u1 u2 u3 u4 nowUtc : String) (_hne : domains ≠ []) :
    extract_domains (create_profile_payload domains updatedUtc domainCount
        backendHost u1 u2 u3 u4 nowUtc)
      = (sortedDedup domains).map PValue.str ∧
    ∀ x : String,
      PValue.str x ∈ extract_domains (create_profile_payload domains updatedUtc
        domainCount backendHost u1 u2 u3 u4 nowUtc) ↔ x ∈ domains := by
  have h : extract_domains (create_profile_payload domains updatedUtc domainCount
      backendHost u1 u2 u3 u4 nowUtc) = (sortedDedup domains).map PValue.str := rfl
  refine ⟨h, fun x => ?_⟩
  rw [h, List.mem_map]
  constructor
  · rintro ⟨y, hy, he⟩
    injection he with he'
    exact he' ▸ mem_sortedDedup.mp hy
  · intro hx
    exact ⟨x, mem_sortedDedup.mpr hx, rfl⟩

/-- C2 witness: the round trip evaluated on a concrete three-element list
with one duplicate. -/
theorem create_profile_extract_roundtrip_witness :
    extract_domains (create_profile_payload
        ["b.example.com", "a.example.com", "a.example.com"]
        (some "2026-10-12 00:00:00 UTC") (some 2) "h" "u1" "u2" "u3" "u4" "now")
      = [PValue.str "a.example.com", PValue.str "b.example.com"] ∧
    (PValue.str "a.example.com" ∈ extract_domains (create_profile_payload
        ["b.example.com", "a.example.com", "a.example.com"]
        (some "2026-10-12 00:00:00 UTC") (some 2) "h" "u1" "u2" "u3" "u4" "now") ↔
      "a.example.com" ∈ ["b.example.com", "a.example.com", "a.example.com"]) := by
  constructor
  · exact ((create_profile_extract_roundtrip
      ["b.example.com", "a.example.com", "a.example.com"]
      (some "2026-10-12 00:00:00 UTC") (some 2) "h" "u1" "u2" "u3" "u4" "now"
      (by decide)).1).trans (by rfl)
  · exact (create_profile_extract_roundtrip
      ["b.example.com", "a.example.com", "a.example.com"]
      (some "2026-10-12 00:00:00 UTC") (some 2) "h" "u1" "u2" "u3" "u4" "now"
      (by decide)).2 "a.example.com"

/-- C3 (counterexample): the claim requires `ChainError` when the blob has
zero complete begin/end certificate blocks, but the scanner also closes a
block at a bare end-marker line: a blob containing no begin marker at all
(hence zero complete blocks) still yields a leaf, namely the end-marker
line itself. -/
theorem split_certificate_chain_stray_end_counterexample :
    (["garbage", "-----END CERTIFICATE-----"].all
        (fun l => !containsMarker l beginMarker)) = true ∧
    split_certificate_chain ["garbage", "-----END CERTIFICATE-----"]
      = some ("-----END CERTIFICATE-----", none) := by
  constructor
  · decide
  · decide

/-- C3 (amended): in terms of the scanner's block list (which treats a bare
end-marker line as closing a possibly empty block): exactly one collected
block yields that block as leaf with no chain; three collected blocks yield
block 1 as leaf and blocks 2 and 3, in order and newline-joined, as the
chain; zero collected blocks yield the error return. -/
theorem split_certificate_chain_cases (lines : List String) (b1 b2 b3 : String) :
    (certBlocks lines = [b1] → split_certificate_chain lines = some (b1, none)) ∧
    (certBlocks lines = [b1, b2, b3] →
      split_certificate_chain lines = some (b1, some (b2 ++ "\n" ++ b3))) ∧
    (certBlocks lines = [] → split_certificate_chain lines = none) := by
  refine ⟨fun h => ?_, fun h => ?_, fun h => ?_⟩
  · unfold split_certificate_chain
    rw [h]
    rfl
  · unfold split_certificate_chain
    rw [h]
    rfl
  · unfold split_certificate_chain
    rw [h]

/-- C3 witness: the three cases of the amended claim evaluated on concrete
blobs with one, three and zero certificate blocks. -/
theorem split_certificate_chain_cases_witness :
    split_certificate_chain [beginMarker, "AAA", endMarker]
      = some (beginMarker ++ "\n" ++ "AAA" ++ "\n" ++ endMarker, none) ∧
    split_certificate_chain [beginMarker, "AAA", endMarker, beginMarker, "BBB",
        endMarker, beginMarker, "CCC", endMarker]
      = some (beginMarker ++ "\n" ++ "AAA" ++ "\n" ++ endMarker,
          some ((beginMarker ++ "\n" ++ "BBB" ++ "\n" ++ endMarker) ++ "\n"
            ++ (beginMarker ++ "\n" ++ "CCC" ++ "\n" ++ endMarker))) ∧
    split_certificate_chain ["no", "markers", "here"] = none := by
  refine ⟨?_, ?_, ?_⟩
  · exact (split_certificate_chain_cases [beginMarker, "AAA", endMarker]
      (beginMarker ++ "\n" ++ "AAA" ++ "\n" ++ endMarker) "" "").1 (by decide)
  · exact (split_certificate_chain_cases
      [beginMarker, "AAA", endMarker, beginMarker, "BBB", endMarker, beginMarker, "CCC", endMarker]
      (beginMarker ++ "\n" ++ "AAA" ++ "\n" ++ endMarker)
      (beginMarker ++ "\n" ++ "BBB" ++ "\n" ++ endMarker)
      (beginMarker ++ "\n" ++ "CCC" ++ "\n" ++ endMarker)).2.1 (by decide)
  · exact (split_certificate_chain_cases ["no", "markers", "here"] "" "" "").2.2 (by decide)

theorem sign_profile_result_none (env : SignEnv)
    (h : env.certFileExists = false ∨ env.keyFileExists = false ∨
         env.plistExists = false ∨ env.opensslSignOk = false) :
    (sign_profile env).result = none := by
  obtain ⟨cp, kp, pe, ce, ke, cl, ok⟩ := env
  rcases cp with _ | a
  · rfl
  rcases kp with _ | b
  · rfl
  cases pe <;> cases ce <;> cases ke <;> cases ok <;>
    first
      | rfl
      | (simp at h; done)
      | (simp only [sign_profile]
         rcases hs : split_certificate_chain cl with _ | ⟨s, c⟩ <;> simp [hs])

/-- C4 (counterexample): the claim says zero certificate blocks in the
chain split force the unsigned fallback, but `sign_profile` instead retries
with the raw certificate file; when the external primitive then reports
success the pipeline writes the signed container, not the unsigned file. -/
theorem generate_profile_zero_blocks_counterexample :
    certBlocks ([] : List String) = [] ∧
    generate_profile ⟨some "fullchain.pem", some "privkey.pem", true, true, true, [], true⟩ true
      = some (.signed "RevokeGuard_Auto-Sync.mobileconfig") := by
  constructor
  · rfl
  · rfl

/-- C4 (amended): whenever the certificate or key is not configured, their
files are missing, the payload file is missing, or the external signing
primitive reports failure, the pipeline writes the unsigned payload file
under the distinct unsigned filename instead of aborting; when the chain
split finds zero blocks the code retries signing with the raw certificate
file, and the unsigned fallback is taken only if that attempt fails. -/
theorem generate_profile_unsigned_fallback (env : SignEnv)
    (h : env.certPath = none ∨ env.keyPath = none ∨ env.certFileExists = false ∨
         env.keyFileExists = false ∨ env.plistExists = false ∨ env.opensslSignOk = false) :
    generate_profile env true = some (.unsigned "RevokeGuard_Auto-Sync.plist") := by
  rcases h with h | h | h | h | h | h
  · simp [generate_profile, h]
  · simp [generate_profile, h]
  all_goals {
    have hr := sign_profile_result_none env (by tauto)
    by_cases hck : (env.certPath.isSome && env.keyPath.isSome) = true
    · simp [generate_profile, hck, hr]
    · simp [generate_profile, hck]
  }

/-- C4 witness: the fallback evaluated with a well-formed certificate file
but a failing external signing primitive. -/
theorem generate_profile_unsigned_fallback_witness :
    generate_profile ⟨some "fullchain.pem", some "privkey.pem", true, true, true,
        [beginMarker, "AAA", endMarker], false⟩ true
      = some (.unsigned "RevokeGuard_Auto-Sync.plist") :=
  generate_profile_unsigned_fallback _
    (Or.inr (Or.inr (Or.inr (Or.inr (Or.inr rfl)))))

/-- C5 (code bug): the spec requires the temporary certificate artifacts of
the chain split to be deleted on every exit path, but `sign_profile` only
unlinks them on the success path: with a one-block certificate file and a
failing external primitive, one temporary file is created and none is
deleted. -/
theorem sign_profile_leaks_temp_on_failure :
    sign_profile ⟨some "fullchain.pem", some "privkey.pem", true, true, true,
        [beginMarker, "AAA", endMarker], true⟩
      = ⟨some (), 1, 1⟩ ∧
    sign_profile ⟨some "fullchain.pem", some "privkey.pem", true, true, true,
        [beginMarker, "AAA", endMarker], false⟩
      = ⟨none, 1, 0⟩ := by
  constructor
  · decide
  · decide

/-- C6: two sources contributing the given domain sets merge to the three
sorted unique domains, and the hosts-format document consists of the fixed
5-line header, the format comment line, a blank separator line, and then
exactly the three mapping lines. -/
theorem end_to_end_merge_hosts (author updatedUtc : String) :
    merge_domains [["a.example.com", "b.example.com"],
        ["b.example.com", "c.example.com"]]
      = ["a.example.com", "b.example.com", "c.example.com"] ∧
    hosts_rule_lines ["a.example.com", "b.example.com", "c.example.com"]
        author updatedUtc 3 "0.0.0.0"
      = build_header "#" author updatedUtc 3
        ++ ["# Format: IP domain", ""]
        ++ ["0.0.0.0 a.example.com", "0.0.0.0 b.example.com", "0.0.0.0 c.example.com"] := by
  constructor
  · decide
  · rfl

/-- C7: extraction is a total function of the payload (it cannot raise),
and any payload in which no well-shaped content entry contributes a
domain — in particular a payload whose content field is missing or not a
list, or whose content entries lack the nested settings block or hold it
with the wrong shape — yields the empty result. -/
theorem extract_domains_tolerant (p : PValue)
    (h : ∀ m content, p = .dict m →
      PValue.getD m "PayloadContent" (.list []) = .list content →
      ∀ e ∈ content, entry_domains e = []) :
    extract_domains p = [] := by
  cases p with
  | str s => rfl
  | int n => rfl
  | bool b => rfl
  | list l => rfl
  | dict m =>
    rcases hc : PValue.getD m "PayloadContent" (.list []) with s | n | b | content | m'
    case list =>
      rw [extract_domains_dict_of_list hc]
      have hall : ∀ e ∈ content, entry_domains e = [] := h m content rfl hc
      rw [List.flatten_eq_nil_iff]
      intro l hl
      rcases List.mem_map.mp hl with ⟨e, he, rfl⟩
      exact hall e he
    all_goals
      rw [extract_domains_dict_eq m, hc]

/-- C7 witness: a payload whose content field exists but is not a list
yields the empty result. -/
theorem extract_domains_tolerant_witness :
    extract_domains (.dict [("PayloadContent", .str "oops")]) = [] :=
  extract_domains_tolerant _ (by
    intro m content hm hc
    injection hm with h'
    subst h'
    exact PValue.noConfusion hc)

/-- C8 (counterexample): the claim says only string elements of the
match-domain list are accepted, but `domains.extend(match_domains)`
performs no per-element type check: an integer element is returned as a
domain as well. -/
theorem extract_domains_nonstring_counterexample :
    extract_domains (.dict [("PayloadContent", .list [.dict [("DNSSettings",
        .dict [("SupplementalMatchDomains", .list [.str "a.example.com", .int 7])])]])])
      = [.str "a.example.com", .int 7] := rfl

/-- C8 (amended): extraction returns the concatenation over the content
entries of each entry's match-domain list taken verbatim: every element of
a well-shaped match-domain list appears in the result, whether it is a
string or not — no per-element type filtering is applied (only the
containing structures are type-checked). -/
theorem extract_domains_verbatim (m : List (String × PValue)) (content : List PValue)
    (h : PValue.getD m "PayloadContent" (.list []) = .list content) :
    extract_domains (.dict m) = (content.map entry_domains).flatten ∧
    ∀ (pm dm : List (String × PValue)) (md : List PValue),
      PValue.lookup pm "DNSSettings" = some (.dict dm) →
      PValue.lookup dm "SupplementalMatchDomains" = some (.list md) →
      entry_domains (.dict pm) = md := by
  refine ⟨extract_domains_dict_of_list h, fun pm dm md h1 h2 => ?_⟩
  have s1 : entry_domains (.dict pm)
      = match PValue.getD pm "DNSSettings" (.dict []) with
        | .dict dm' =>
          (match PValue.getD dm' "SupplementalMatchDomains" (.list []) with
            | .list md' => md'
            | _ => [])
        | _ => [] := rfl
  have e1 : PValue.getD pm "DNSSettings" (.dict []) = .dict dm := by
    unfold PValue.getD
    rw [h1]
    rfl
  rw [s1, e1]
  show (match PValue.getD dm "SupplementalMatchDomains" (.list []) with
        | .list md' => md'
        | _ => []) = md
  have e2 : PValue.getD dm "SupplementalMatchDomains" (.list []) = .list md := by
    unfold PValue.getD
    rw [h2]
    rfl
  rw [e2]

/-- C8 witness: the amended claim evaluated on a concrete payload whose
match-domain list holds a single integer. -/
theorem extract_domains_verbatim_witness :
    extract_domains (.dict [("PayloadContent", .list [])]) = [] ∧
    entry_domains (.dict [("DNSSettings",
        .dict [("SupplementalMatchDomains", .list [.int 7])])]) = [.int 7] := by
  constructor
  · exact (extract_domains_verbatim [("PayloadContent", .list [])] [] rfl).1
  · exact (extract_domains_verbatim [("PayloadContent", .list [])] [] rfl).2
      [("DNSSettings", .dict [("SupplementalMatchDomains", .list [.int 7])])]
      [("SupplementalMatchDomains", .list [.int 7])] [.int 7] rfl rfl

/-- C9: the Surge, Loon and Shadowrocket generators produce
character-identical documents for every input. -/
theorem surge_loon_shadowrocket_identical (domains : List String)
    (author updatedUtc : String) (domainCount : Nat) :
    generate_surge_rules domains author updatedUtc domainCount
        = generate_loon_rules domains author updatedUtc domainCount ∧
    generate_loon_rules domains author updatedUtc domainCount
        = generate_shadowrocket_rules domains author updatedUtc domainCount :=
  ⟨rfl, rfl⟩

/-- C10: in every rule format the fourth header line renders exactly the
domain-count argument supplied by the caller, for every input domain list;
and with blank or duplicate input entries the header count and the number
of body lines can differ: a list with a duplicate and a blank entry passed
with count 3 produces a hosts document with a single body line under a
header announcing 3 domains. -/
theorem header_count_is_caller_argument (domains : List String)
    (author updatedUtc : String) (n : Nat) :
    (quantumultx_rule_lines domains author updatedUtc n)[3]?
        = some ("# Domain Count: " ++ toString n) ∧
    (surge_rule_lines domains author updatedUtc n)[3]?
        = some ("# Domain Count: " ++ toString n) ∧
    (loon_rule_lines domains author updatedUtc n)[3]?
        = some ("# Domain Count: " ++ toString n) ∧
    (shadowrocket_rule_lines domains author updatedUtc n)[3]?
        = some ("# Domain Count: " ++ toString n) ∧
    (hosts_rule_lines domains author updatedUtc n "0.0.0.0")[3]?
        = some ("# Domain Count: " ++ toString n) ∧
    (build_header "#" author updatedUtc n)[3]?
        = some ("# Domain Count: " ++ toString n) ∧
    hosts_rule_lines ["a.example.com", "a.example.com", " "] author updatedUtc 3 "0.0.0.0"
      = build_header "#" author updatedUtc 3
        ++ ["# Format: IP domain", "", "0.0.0.0 a.example.com"] := by
  refine ⟨?_, ?_, ?_, ?_, ?_, ?_, ?_⟩ <;> rfl

end AntiRevoke
